import Mathlib

/-!
# Verification of the unida-backend submission pipeline

Shallow embedding of the unida-backend Express/Mongoose server.  The
"richest variant" (the JWT-authenticated server with register/login,
PDF-filtered paper upload to Cloudinary, comments, news and events) is
embedded in namespace `Unida`; the minimal no-auth variant (the one whose
Paper schema has no Cloudinary handle and whose DELETE route has no auth
middleware) is embedded in namespace `UnidaV1`.

External libraries are modelled as pure functions:
* `bcrypt.hash`/`bcrypt.compare` become an injective tagging function and
  the comparison that recomputes it (the code only ever compares a
  password against a hash produced by `bcrypt.hash`);
* `jwt.sign`/`jwt.verify` become a record holding the payload, the
  signing secret and the expiry, and a verifier that checks the secret;
* `express-validator`'s `isEmail` becomes an executable predicate on the
  character data of the string;
* Cloudinary becomes a list of stored object handles inside the server
  state; `upload_stream` appends a fresh handle, `destroy` removes it.

Mongo documents get `Nat` ids drawn from a counter in the state and
`Nat` timestamps drawn from a logical clock that advances on every
creation, mirroring `Date.now`.
-/

namespace Unida

/-- Model of `bcrypt.hash(password, 10)`: a deterministic injective tag.
(The real hash is salted; the code only ever feeds a stored hash back to
`bcrypt.compare`, which this model captures.) -/
def bcryptHash (password : String) : String :=
  "bcrypt-10-" ++ password

/-- Model of `bcrypt.compare(password, hash)`. -/
def bcryptCompare (password stored : String) : Bool :=
  stored == bcryptHash password

/-- Payload signed into a JWT by `generateToken`:
`{ id, email, name, isAdmin }`. -/
structure JwtPayload where
  id : Nat
  email : String
  name : String
  isAdmin : Bool
deriving Repr, DecidableEq

/-- Model of a signed JWT: the payload together with the secret it was
signed with and the `expiresIn` option. -/
structure JwtToken where
  payload : JwtPayload
  secret : String
  expiresIn : String
deriving Repr, DecidableEq

/-- Model of `jwt.sign(payload, secret, { expiresIn })`. -/
def jwtSign (payload : JwtPayload) (secret : String) (expiresIn : String) : JwtToken :=
  ⟨payload, secret, expiresIn⟩

/-- Model of `jwt.verify(token, secret)`: succeeds exactly when the
token was signed with the same secret. -/
def jwtVerify (t : JwtToken) (secret : String) : Option JwtPayload :=
  if t.secret = secret then some t.payload else none

/-- `process.env.JWT_SECRET || 'dev_secret'` (the fallback value). -/
def JWT_SECRET : String := "dev_secret"

/-- Mongoose `User` document (UserSchema). -/
structure User where
  id : Nat
  name : String
  email : String
  passwordHash : String
  institution : String
  avatar : String
  isAdmin : Bool
  bio : String
  createdAt : Nat
deriving Repr, DecidableEq

/-- `function generateToken(user)`:
`jwt.sign({ id, email, name, isAdmin }, JWT_SECRET, { expiresIn: '30d' })`. -/
def generateToken (u : User) : JwtToken :=
  jwtSign ⟨u.id, u.email, u.name, u.isAdmin⟩ JWT_SECRET "30d"

/-- Mongoose `Comment` subdocument (CommentSchema). -/
structure Comment where
  author : String
  avatar : String
  text : String
  time : Nat
deriving Repr, DecidableEq

/-- Mongoose `Paper` document (PaperSchema of the richest variant):
carries the Cloudinary URL and the opaque `cloudinary_public_id`
storage handle. -/
structure Paper where
  id : Nat
  title : String
  desc : String
  category : String
  author : String
  authorAvatar : String
  pdfUrl : String
  cloudinary_public_id : String
  collaboration : Bool
  likes : Nat
  comments : List Comment
  date : Nat
deriving Repr, DecidableEq

/-- Mongoose `News` document (NewsSchema). -/
structure NewsItem where
  id : Nat
  title : String
  desc : String
  tag : String
  img : String
  author : String
  createdAt : Nat
deriving Repr, DecidableEq

/-- Mongoose `Event` document (EventSchema). -/
structure EventItem where
  id : Nat
  title : String
  desc : String
  etype : String
  day : String
  month : String
  location : String
  createdAt : Nat
deriving Repr, DecidableEq

/-- A multipart file as multer's memory storage presents it:
`originalname`, `mimetype` and the byte `buffer`. -/
structure FileUpload where
  originalname : String
  mimetype : String
  buffer : List Nat
deriving Repr, DecidableEq

/-- The whole observable state: the Mongo collections, the set of object
handles held by Cloudinary (`media`), the document-id counter and the
`Date.now` logical clock. -/
structure ServerState where
  users : List User
  papers : List Paper
  news : List NewsItem
  events : List EventItem
  media : List String
  nextId : Nat
  now : Nat
deriving Repr, DecidableEq

/-- State of a server that has just started against empty collections. -/
def initState : ServerState :=
  { users := [], papers := [], news := [], events := [], media := [], nextId := 0, now := 0 }

/-- Outcome of one request: HTTP status, optional response body, and the
server state afterwards. -/
structure HandlerResult (α : Type) where
  status : Nat
  body : Option α
  state : ServerState
deriving Repr

/-- Model of `express-validator`'s `check('email').isEmail()` (external
library): exactly one `@`, a nonempty local part, and a domain
containing a dot. -/
def isEmail (s : String) : Bool :=
  let cs := s.data
  cs.count '@' == 1 &&
  decide ((cs.takeWhile (fun c => c != '@')).length ≥ 1) &&
  (match cs.dropWhile (fun c => c != '@') with
   | _ :: domain => domain.contains '.' && decide (domain.length ≥ 3)
   | [] => false)

/-- The ui-avatars default avatar URL built at registration
(`encodeURIComponent` modelled as the identity on the name). -/
def defaultAvatar (name : String) : String :=
  "https://ui-avatars.com/api/?name=" ++ name ++ "&background=76935C&color=fff"

/-- `User.findOne({ email })`. -/
def findUserByEmail (s : ServerState) (email : String) : Option User :=
  s.users.find? (fun u => u.email == email)

/-- The register validator chain: `name` min length 2, `isEmail`,
`password` min length 6. -/
def registerValid (name email password : String) : Bool :=
  decide (name.length ≥ 2) && (isEmail email && decide (password.length ≥ 6))

/-- `POST /api/auth/register` of the richest variant: validators
(`name` min length 2, `isEmail`, `password` min length 6), duplicate
check, `bcrypt.hash`, `new User(...)` (so `isAdmin` defaults to
`false`), save, and `generateToken`. -/
def register (s : ServerState) (name email password : String)
    (institution : Option String) : HandlerResult (User × JwtToken) :=
  if !registerValid name email password then
    ⟨400, none, s⟩
  else
    match findUserByEmail s email with
    | some _ => ⟨400, none, s⟩
    | none =>
      let user : User :=
        { id := s.nextId
          name := name
          email := email
          passwordHash := bcryptHash password
          institution := institution.getD ""
          avatar := defaultAvatar name
          isAdmin := false
          bio := ""
          createdAt := s.now }
      let s' : ServerState :=
        { s with users := s.users ++ [user], nextId := s.nextId + 1, now := s.now + 1 }
      ⟨200, some (user, generateToken user), s'⟩

/-- `POST /api/auth/login` of the richest variant: validators
(`isEmail`, password present), `User.findOne({email})`,
`bcrypt.compare`, `generateToken`. -/
def login (s : ServerState) (email password : String) : HandlerResult (User × JwtToken) :=
  if !(isEmail email) then ⟨400, none, s⟩
  else
    match findUserByEmail s email with
    | none => ⟨400, none, s⟩
    | some user =>
      if !(bcryptCompare password user.passwordHash) then ⟨400, none, s⟩
      else ⟨200, some (user, generateToken user), s⟩

/-- `authMiddleware`: extract the bearer token (modelled as the optional
token itself) and `jwt.verify` it against `JWT_SECRET`. -/
def authCheck (auth : Option JwtToken) : Option JwtPayload :=
  match auth with
  | none => none
  | some t => jwtVerify t JWT_SECRET

/-- The Cloudinary public id minted by `uploadBufferToCloudinary`:
`unida/<basename>-<Date.now()>-<uuid>` (clock and id counter stand in
for timestamp and uuid; both make the handle fresh). -/
def mintHandle (s : ServerState) (originalname : String) : String :=
  "unida/" ++ originalname ++ "-" ++ toString s.now ++ "-" ++ toString s.nextId

/-- `Paper.findById(id)` — the Paper Repository `get`. -/
def getPaperById (s : ServerState) (id : Nat) : Option Paper :=
  s.papers.find? (fun p => p.id == id)

/-- `GET /api/papers` of the richest variant:
`Paper.find({}).sort({ date: -1 })` — every paper, newest first. -/
def listPapers (s : ServerState) : List Paper :=
  s.papers.insertionSort (fun a b => b.date ≤ a.date)

/-- `POST /api/papers` of the richest variant, in middleware order:
`authMiddleware`; multer's `uploadPDF` file filter (a non-PDF mimetype
raises `Only PDF files are allowed`, which the global error handler
turns into a 400 before the route body ever runs); the `title`/`author`
validators; the `File required` check; `uploadBufferToCloudinary`
(which stores the object remotely); then `new Paper(...)` and `save`. -/
def postPaper (s : ServerState) (auth : Option JwtToken) (file : Option FileUpload)
    (title desc category author authorAvatar collaboration : String) :
    HandlerResult Paper :=
  match authCheck auth with
  | none => ⟨401, none, s⟩
  | some _payload =>
    match file with
    | some f =>
      if f.mimetype != "application/pdf" then ⟨400, none, s⟩
      else if !(decide (title.length ≥ 1) && decide (author.length ≥ 1)) then ⟨400, none, s⟩
      else
        let handle := mintHandle s f.originalname
        let s1 := { s with media := s.media ++ [handle] }
        let paper : Paper :=
          { id := s1.nextId
            title := title
            desc := desc
            category := category
            author := author
            authorAvatar := authorAvatar
            pdfUrl := "https://res.cloudinary.com/raw/upload/" ++ handle
            cloudinary_public_id := handle
            collaboration := collaboration == "true"
            likes := 0
            comments := []
            date := s1.now }
        let s2 :=
          { s1 with papers := s1.papers ++ [paper], nextId := s1.nextId + 1, now := s1.now + 1 }
        ⟨200, some paper, s2⟩
    | none =>
      if !(decide (title.length ≥ 1) && decide (author.length ≥ 1)) then ⟨400, none, s⟩
      else ⟨400, none, s⟩

/-- `cloudinary.uploader.destroy(handle, { resource_type: 'raw' })`:
removes the object with that handle from the external store. -/
def mediaDestroy (media : List String) (handle : String) : List String :=
  media.filter (fun h => h != handle)

/-- `DELETE /api/papers/:id` of the richest variant: `authMiddleware`;
`findById` (404 when absent); the author-or-admin check (403); then the
best-effort Cloudinary destroy guarded by a non-empty
`cloudinary_public_id`; then `paper.remove()`. -/
def deletePaper (s : ServerState) (auth : Option JwtToken) (id : Nat) : HandlerResult Unit :=
  match authCheck auth with
  | none => ⟨401, none, s⟩
  | some payload =>
    match getPaperById s id with
    | none => ⟨404, none, s⟩
    | some paper =>
      if !(payload.name == paper.author) && !payload.isAdmin then ⟨403, none, s⟩
      else
        ⟨200, some (),
          { s with
            media :=
              if paper.cloudinary_public_id != "" then
                mediaDestroy s.media paper.cloudinary_public_id
              else s.media
            papers := s.papers.filter (fun p => p.id != id) }⟩

/-- `POST /api/papers/:id/comments` of the richest variant:
`authMiddleware`; the `text` validator; `findById` (404 when absent);
push `{ author: req.user.name, avatar: req.user.avatar || '', text,
time }` (the JWT payload carries no avatar, so the fallback `''` always
applies) and save. -/
def postComment (s : ServerState) (auth : Option JwtToken) (id : Nat) (text : String) :
    HandlerResult (List Comment) :=
  match authCheck auth with
  | none => ⟨401, none, s⟩
  | some payload =>
    if !(decide (text.length ≥ 1)) then ⟨400, none, s⟩
    else
      match getPaperById s id with
      | none => ⟨404, none, s⟩
      | some paper =>
        let c : Comment := { author := payload.name, avatar := "", text := text, time := s.now }
        let updated := { paper with comments := paper.comments ++ [c] }
        let s' :=
          { s with
            papers := s.papers.map (fun p => if p.id == id then updated else p)
            now := s.now + 1 }
        ⟨200, some updated.comments, s'⟩

/-- `POST /api/users/avatar`: `authMiddleware`; multer's `uploadImage`
filter (a non-image mimetype raises `Only image files are allowed for
avatar`, which the global error handler does NOT special-case, so it
falls through to 500); `File required`; Cloudinary image upload;
`User.findById`; update `user.avatar` and save. -/
def postAvatar (s : ServerState) (auth : Option JwtToken) (file : Option FileUpload) :
    HandlerResult String :=
  match authCheck auth with
  | none => ⟨401, none, s⟩
  | some payload =>
    match file with
    | none => ⟨400, none, s⟩
    | some f =>
      if !(f.mimetype.data.take 6 == "image/".data) then ⟨500, none, s⟩
      else
        match s.users.find? (fun u => u.id == payload.id) with
        | none => ⟨404, none, { s with media := s.media ++ [mintHandle s f.originalname] }⟩
        | some _user =>
          ⟨200, some ("https://res.cloudinary.com/image/upload/" ++ mintHandle s f.originalname),
            { s with
              media := s.media ++ [mintHandle s f.originalname]
              users := s.users.map (fun u =>
                if u.id == payload.id then
                  { u with avatar := "https://res.cloudinary.com/image/upload/" ++ mintHandle s f.originalname }
                else u)
              now := s.now + 1 }⟩

/-- `GET /api/news`: `News.find({}).sort({ createdAt: -1 })`. -/
def listNews (s : ServerState) : List NewsItem :=
  s.news.insertionSort (fun a b => b.createdAt ≤ a.createdAt)

/-- `POST /api/news`: `authMiddleware`; `title` validator; save a News
document stamped with `author: req.user.name`. -/
def postNews (s : ServerState) (auth : Option JwtToken) (title desc tag img : String) :
    HandlerResult NewsItem :=
  match authCheck auth with
  | none => ⟨401, none, s⟩
  | some payload =>
    if !(decide (title.length ≥ 1)) then ⟨400, none, s⟩
    else
      let item : NewsItem :=
        { id := s.nextId, title := title, desc := desc, tag := tag, img := img
          author := payload.name, createdAt := s.now }
      ⟨200, some item,
        { s with news := s.news ++ [item], nextId := s.nextId + 1, now := s.now + 1 }⟩

/-- `DELETE /api/news/:id`: `authMiddleware`; the admin gate
(`if (!req.user.isAdmin) return 403`); then `News.findByIdAndDelete`
(which replies `{ok:true}` whether or not the id existed). -/
def deleteNews (s : ServerState) (auth : Option JwtToken) (id : Nat) : HandlerResult Unit :=
  match authCheck auth with
  | none => ⟨401, none, s⟩
  | some payload =>
    if !payload.isAdmin then ⟨403, none, s⟩
    else ⟨200, some (), { s with news := s.news.filter (fun n => n.id != id) }⟩

/-- `GET /api/events`: `Event.find({}).sort({ createdAt: -1 })`. -/
def listEvents (s : ServerState) : List EventItem :=
  s.events.insertionSort (fun a b => b.createdAt ≤ a.createdAt)

/-- `POST /api/events`: `authMiddleware`; the `title` validator is
attached but `validationResult` is never consulted in this handler, so
every authenticated request saves an Event. -/
def postEvent (s : ServerState) (auth : Option JwtToken)
    (title desc etype day month location : String) : HandlerResult EventItem :=
  match authCheck auth with
  | none => ⟨401, none, s⟩
  | some _payload =>
    let item : EventItem :=
      { id := s.nextId, title := title, desc := desc, etype := etype
        day := day, month := month, location := location, createdAt := s.now }
    ⟨200, some item,
      { s with events := s.events ++ [item], nextId := s.nextId + 1, now := s.now + 1 }⟩

/-- `DELETE /api/events/:id`: `authMiddleware`; the admin gate; then
`Event.findByIdAndDelete`. -/
def deleteEvent (s : ServerState) (auth : Option JwtToken) (id : Nat) : HandlerResult Unit :=
  match authCheck auth with
  | none => ⟨401, none, s⟩
  | some payload =>
    if !payload.isAdmin then ⟨403, none, s⟩
    else ⟨200, some (), { s with events := s.events.filter (fun e => e.id != id) }⟩

/-- One inbound API request of the richest variant (the endpoints that
can reach the database or the media store). -/
inductive Request where
  | rRegister (name email password : String) (institution : Option String)
  | rLogin (email password : String)
  | rPostPaper (auth : Option JwtToken) (file : Option FileUpload)
      (title desc category author authorAvatar collaboration : String)
  | rDeletePaper (auth : Option JwtToken) (id : Nat)
  | rPostComment (auth : Option JwtToken) (id : Nat) (text : String)
  | rPostAvatar (auth : Option JwtToken) (file : Option FileUpload)
  | rPostNews (auth : Option JwtToken) (title desc tag img : String)
  | rDeleteNews (auth : Option JwtToken) (id : Nat)
  | rPostEvent (auth : Option JwtToken) (title desc etype day month location : String)
  | rDeleteEvent (auth : Option JwtToken) (id : Nat)
deriving Repr

/-- The state transition of one request (reads like `GET /api/papers`
leave the state unchanged and are omitted). -/
def step (s : ServerState) : Request → ServerState
  | .rRegister name email password institution => (register s name email password institution).state
  | .rLogin email password => (login s email password).state
  | .rPostPaper auth file title desc category author authorAvatar collaboration =>
      (postPaper s auth file title desc category author authorAvatar collaboration).state
  | .rDeletePaper auth id => (deletePaper s auth id).state
  | .rPostComment auth id text => (postComment s auth id text).state
  | .rPostAvatar auth file => (postAvatar s auth file).state
  | .rPostNews auth title desc tag img => (postNews s auth title desc tag img).state
  | .rDeleteNews auth id => (deleteNews s auth id).state
  | .rPostEvent auth title desc etype day month location =>
      (postEvent s auth title desc etype day month location).state
  | .rDeleteEvent auth id => (deleteEvent s auth id).state

/-- Run a whole trace of requests from a starting state. -/
def run (s : ServerState) : List Request → ServerState
  | [] => s
  | r :: rs => run (step s r) rs

end Unida

namespace UnidaV1

/-- Mongoose `Paper` document of the minimal no-auth variant
(`paperSchema`): no `cloudinary_public_id` field exists — the schema
keeps no storage handle, only the `pdfUrl`. -/
structure Paper where
  id : Nat
  title : String
  desc : String
  category : String
  author : String
  authorAvatar : String
  pdfUrl : String
  collaboration : String
  date : String
  likes : Nat
deriving Repr, DecidableEq

/-- State of the no-auth variant: papers collection plus the handles
held by the external media store. -/
structure ServerState where
  papers : List Paper
  media : List String
deriving Repr, DecidableEq

/-- Outcome of a request against the no-auth variant. -/
structure HandlerResult where
  status : Nat
  state : ServerState
deriving Repr

/-- `Paper.findById` of the no-auth variant. -/
def getPaperById (s : ServerState) (id : Nat) : Option Paper :=
  s.papers.find? (fun p => p.id == id)

/-- `DELETE /api/papers/:id` of the no-auth variant: the route has no
`authMiddleware` and no identity parameter at all; it runs
`Paper.findByIdAndDelete(req.params.id)` (404 when absent) and never
touches Cloudinary — the schema holds no handle it could delete with. -/
def deletePaper (s : ServerState) (id : Nat) : HandlerResult :=
  match s.papers.find? (fun p => p.id == id) with
  | none => ⟨404, s⟩
  | some _ => ⟨200, { s with papers := s.papers.filter (fun p => p.id != id) }⟩

end UnidaV1

namespace Unida

/-! ## Concrete data for the witness theorems -/

/-- A concrete stored user. -/
def sampleUser : User :=
  { id := 0
    name := "Alice"
    email := "a@x.com"
    passwordHash := bcryptHash "secret1"
    institution := ""
    avatar := defaultAvatar "Alice"
    isAdmin := false
    bio := ""
    createdAt := 0 }

/-- The token the API would hand `sampleUser`. -/
def sampleToken : JwtToken := generateToken sampleUser

/-- A token for a second, unrelated user. -/
def otherToken : JwtToken := jwtSign ⟨1, "b@x.com", "Bob", false⟩ JWT_SECRET "30d"

/-- An attached PDF file. -/
def samplePdf : FileUpload :=
  { originalname := "t.pdf", mimetype := "application/pdf", buffer := [37, 80, 68, 70] }

/-- An attached plain-text file. -/
def sampleTxt : FileUpload :=
  { originalname := "t.txt", mimetype := "text/plain", buffer := [104, 105] }

/-- A concrete stored paper authored by `sampleUser`. -/
def samplePaper : Paper :=
  { id := 5
    title := "T"
    desc := ""
    category := ""
    author := "Alice"
    authorAvatar := ""
    pdfUrl := "https://res.cloudinary.com/raw/upload/unida/h1"
    cloudinary_public_id := "unida/h1"
    collaboration := false
    likes := 0
    comments := []
    date := 0 }

/-- A concrete server state holding `sampleUser` and `samplePaper`. -/
def sampleState : ServerState :=
  { users := [sampleUser]
    papers := [samplePaper]
    news := []
    events := []
    media := ["unida/h1"]
    nextId := 6
    now := 1 }

/-! ## Claim theorems -/

/-- C7: token issuance is side-effect-free (it is a pure function of the
user, touching no state) and deterministic: the same user value gives
the same token, and the expiry option is 30 days. -/
theorem generateToken_deterministic_thirty_days (u v : User) (h : u = v) :
    generateToken u = generateToken v ∧ (generateToken u).expiresIn = "30d" :=
  ⟨congrArg generateToken h, rfl⟩

/-- Witness for C7 at `sampleUser`. -/
theorem generateToken_deterministic_thirty_days_witness :
    generateToken sampleUser = generateToken sampleUser ∧
      (generateToken sampleUser).expiresIn = "30d" :=
  generateToken_deterministic_thirty_days sampleUser sampleUser rfl

/-- C2: a paper upload whose attachment is not `application/pdf` is
rejected (400 from the multer file filter, or 401 if the token already
failed) with the state — media store and papers collection included —
exactly as before: the filter fires before the Cloudinary upload and
before `Paper.save`. -/
theorem postPaper_rejects_non_pdf (s : ServerState) (auth : Option JwtToken)
    (f : FileUpload) (title desc category author authorAvatar collaboration : String)
    (hmt : f.mimetype ≠ "application/pdf") :
    ((postPaper s auth (some f) title desc category author authorAvatar collaboration).status = 400 ∨
      (postPaper s auth (some f) title desc category author authorAvatar collaboration).status = 401) ∧
    (postPaper s auth (some f) title desc category author authorAvatar collaboration).state = s := by
  unfold postPaper
  cases hauth : authCheck auth with
  | none => exact ⟨Or.inr rfl, rfl⟩
  | some payload =>
    have hb : (f.mimetype != "application/pdf") = true := by
      simpa [bne_iff_ne] using hmt
    simp [hb]

/-- Witness for C2: a `text/plain` upload against `sampleState`. -/
theorem postPaper_rejects_non_pdf_witness :
    ((postPaper sampleState (some sampleToken) (some sampleTxt) "T" "" "" "Alice" "" "false").status = 400 ∨
      (postPaper sampleState (some sampleToken) (some sampleTxt) "T" "" "" "Alice" "" "false").status = 401) ∧
    (postPaper sampleState (some sampleToken) (some sampleTxt) "T" "" "" "Alice" "" "false").state = sampleState :=
  postPaper_rejects_non_pdf sampleState (some sampleToken) sampleTxt "T" "" "" "Alice" "" "false"
    (by decide)

/-- C3: deleting an existing paper as an authenticated identity that is
neither the author nor an admin answers 403 Forbidden and returns the
state untouched — in particular the Paper record and the media store
are exactly as before, because the authorization check precedes the
Cloudinary destroy and the record removal. -/
theorem deletePaper_forbidden_no_side_effect (s : ServerState) (auth : Option JwtToken)
    (id : Nat) (payload : JwtPayload) (paper : Paper)
    (hauth : authCheck auth = some payload)
    (hfind : getPaperById s id = some paper)
    (hname : payload.name ≠ paper.author)
    (hadmin : payload.isAdmin = false) :
    (deletePaper s auth id).status = 403 ∧ (deletePaper s auth id).state = s := by
  unfold deletePaper
  rw [hauth, hfind]
  have hb : (payload.name == paper.author) = false := by
    simpa [beq_iff_eq] using hname
  simp [hb, hadmin]

/-- Witness for C3: Bob tries to delete Alice's paper. -/
theorem deletePaper_forbidden_no_side_effect_witness :
    (deletePaper sampleState (some otherToken) 5).status = 403 ∧
      (deletePaper sampleState (some otherToken) 5).state = sampleState :=
  deletePaper_forbidden_no_side_effect sampleState (some otherToken) 5
    ⟨1, "b@x.com", "Bob", false⟩ samplePaper (by decide) (by decide) (by decide) rfl

/-- C4: deleting an existing paper as its author succeeds, removes the
record (a subsequent repository `get` on that id answers `none`, i.e.
NotFound) and removes the stored object: the paper's Cloudinary handle
is no longer in the media store. -/
theorem deletePaper_author_removes_record_and_object (s : ServerState)
    (auth : Option JwtToken) (id : Nat) (payload : JwtPayload) (paper : Paper)
    (hauth : authCheck auth = some payload)
    (hfind : getPaperById s id = some paper)
    (hname : payload.name = paper.author)
    (hhandle : paper.cloudinary_public_id ≠ "") :
    (deletePaper s auth id).status = 200 ∧
    getPaperById (deletePaper s auth id).state id = none ∧
    paper.cloudinary_public_id ∉ (deletePaper s auth id).state.media := by
  have hb : (payload.name == paper.author) = true := by
    simpa [beq_iff_eq] using hname
  have hh : (paper.cloudinary_public_id != "") = true := by
    simpa [bne_iff_ne] using hhandle
  have hres : deletePaper s auth id =
      ⟨200, some (),
        { s with
          media := mediaDestroy s.media paper.cloudinary_public_id
          papers := s.papers.filter (fun p => p.id != id) }⟩ := by
    unfold deletePaper
    rw [hauth, hfind]
    simp [hb, hh]
  rw [hres]
  refine ⟨rfl, ?_, ?_⟩
  · rw [getPaperById, List.find?_eq_none]
    intro p hp
    have := (List.mem_filter.mp hp).2
    simp only [bne_iff_ne, ne_eq] at this
    simp [this]
  · intro hmem
    have := (List.mem_filter.mp hmem).2
    simp [bne_iff_ne] at this

/-- Witness for C4: Alice deletes her own paper in `sampleState`. -/
theorem deletePaper_author_removes_record_and_object_witness :
    (deletePaper sampleState (some sampleToken) 5).status = 200 ∧
    getPaperById (deletePaper sampleState (some sampleToken) 5).state 5 = none ∧
    samplePaper.cloudinary_public_id ∉ (deletePaper sampleState (some sampleToken) 5).state.media :=
  deletePaper_author_removes_record_and_object sampleState (some sampleToken) 5
    ⟨0, "a@x.com", "Alice", false⟩ samplePaper (by decide) (by decide) rfl (by decide)

/-- C6: appending a comment under a paper id that matches no stored
paper answers 404 NotFound and leaves the whole state unchanged — no
record is created and none is modified. -/
theorem postComment_missing_paper_notfound (s : ServerState) (auth : Option JwtToken)
    (id : Nat) (text : String) (payload : JwtPayload)
    (hauth : authCheck auth = some payload)
    (htext : 1 ≤ text.length)
    (hfind : getPaperById s id = none) :
    (postComment s auth id text).status = 404 ∧ (postComment s auth id text).state = s := by
  unfold postComment
  rw [hauth]
  simp [htext, hfind]

/-- Witness for C6: a comment under the unused id 99. -/
theorem postComment_missing_paper_notfound_witness :
    (postComment sampleState (some sampleToken) 99 "hi").status = 404 ∧
      (postComment sampleState (some sampleToken) 99 "hi").state = sampleState :=
  postComment_missing_paper_notfound sampleState (some sampleToken) 99 "hi"
    ⟨0, "a@x.com", "Alice", false⟩ (by decide) (by decide) (by decide)

/-- C1: registering with valid fields and a fresh email succeeds, a
subsequent login with the same email and password succeeds, and
verifying the token login returned yields exactly the registered
identity: the id minted at registration, the registered email and name,
and `isAdmin = false`. -/
theorem register_login_roundtrip (s : ServerState) (name email password : String)
    (institution : Option String)
    (hnm : 2 ≤ name.length) (hemail : isEmail email = true)
    (hpw : 6 ≤ password.length)
    (hfresh : ∀ u ∈ s.users, u.email ≠ email) :
    (register s name email password institution).status = 200 ∧
    (login (register s name email password institution).state email password).status = 200 ∧
    ∃ u t,
      (login (register s name email password institution).state email password).body =
        some (u, t) ∧
      jwtVerify t JWT_SECRET = some ⟨s.nextId, email, name, false⟩ := by
  have hvalid : registerValid name email password = true := by
    simp [registerValid, hnm, hemail, hpw]
  have hfind : findUserByEmail s email = none := by
    rw [findUserByEmail, List.find?_eq_none]
    intro u hu
    simpa [beq_iff_eq] using hfresh u hu
  set u0 : User :=
    { id := s.nextId
      name := name
      email := email
      passwordHash := bcryptHash password
      institution := institution.getD ""
      avatar := defaultAvatar name
      isAdmin := false
      bio := ""
      createdAt := s.now } with hu0
  set s1 : ServerState :=
    { s with users := s.users ++ [u0], nextId := s.nextId + 1, now := s.now + 1 } with hs1
  have hreg : register s name email password institution =
      ⟨200, some (u0, generateToken u0), s1⟩ := by
    unfold register
    rw [hfind, if_neg (by simp [hvalid])]
  have hfind1 : findUserByEmail s1 email = some u0 := by
    rw [findUserByEmail, hs1]
    show (s.users ++ [u0]).find? (fun u => u.email == email) = some u0
    rw [List.find?_append]
    rw [findUserByEmail] at hfind
    rw [hfind]
    simp
  have hlog : login s1 email password = ⟨200, some (u0, generateToken u0), s1⟩ := by
    unfold login
    rw [hfind1]
    simp [hemail, bcryptCompare]
  rw [hreg]
  refine ⟨rfl, ?_, u0, generateToken u0, ?_, ?_⟩
  · rw [hlog]
  · rw [hlog]
  · rfl

/-- Witness for C1: Alice registers on the empty store and logs in. -/
theorem register_login_roundtrip_witness :
    (register initState "Alice" "a@x.com" "secret1" none).status = 200 ∧
    (login (register initState "Alice" "a@x.com" "secret1" none).state "a@x.com" "secret1").status = 200 ∧
    ∃ u t,
      (login (register initState "Alice" "a@x.com" "secret1" none).state "a@x.com" "secret1").body =
        some (u, t) ∧
      jwtVerify t JWT_SECRET = some ⟨initState.nextId, "a@x.com", "Alice", false⟩ :=
  register_login_roundtrip initState "Alice" "a@x.com" "secret1" none
    (by decide) (by decide) (by decide) (by decide)

/-! ## User-collection invariants -/

/-- No two stored users share an email. -/
def emailUnique (s : ServerState) : Prop :=
  s.users.Pairwise (fun u v => u.email ≠ v.email)

/-- Every stored user has `isAdmin = false`. -/
def allUsersNonAdmin (s : ServerState) : Prop :=
  ∀ u ∈ s.users, u.isAdmin = false

lemma login_state_eq (s : ServerState) (email password : String) :
    (login s email password).state = s := by
  unfold login
  split
  · rfl
  · split
    · rfl
    · split
      · rfl
      · rfl

lemma postPaper_users_eq (s : ServerState) (auth : Option JwtToken) (file : Option FileUpload)
    (title desc category author authorAvatar collaboration : String) :
    (postPaper s auth file title desc category author authorAvatar collaboration).state.users =
      s.users := by
  unfold postPaper
  split
  · rfl
  · split
    · split
      · rfl
      · split
        · rfl
        · rfl
    · split
      · rfl
      · rfl

lemma deletePaper_users_eq (s : ServerState) (auth : Option JwtToken) (id : Nat) :
    (deletePaper s auth id).state.users = s.users := by
  unfold deletePaper
  split
  · rfl
  · split
    · rfl
    · split
      · rfl
      · rfl

lemma postComment_users_eq (s : ServerState) (auth : Option JwtToken) (id : Nat)
    (text : String) :
    (postComment s auth id text).state.users = s.users := by
  unfold postComment
  split
  · rfl
  · split
    · rfl
    · split
      · rfl
      · rfl

lemma postNews_users_eq (s : ServerState) (auth : Option JwtToken) (title desc tag img : String) :
    (postNews s auth title desc tag img).state.users = s.users := by
  unfold postNews
  split
  · rfl
  · split
    · rfl
    · rfl

lemma deleteNews_users_eq (s : ServerState) (auth : Option JwtToken) (id : Nat) :
    (deleteNews s auth id).state.users = s.users := by
  unfold deleteNews
  split
  · rfl
  · split
    · rfl
    · rfl

lemma postEvent_users_eq (s : ServerState) (auth : Option JwtToken)
    (title desc etype day month location : String) :
    (postEvent s auth title desc etype day month location).state.users = s.users := by
  unfold postEvent
  split
  · rfl
  · rfl

lemma deleteEvent_users_eq (s : ServerState) (auth : Option JwtToken) (id : Nat) :
    (deleteEvent s auth id).state.users = s.users := by
  unfold deleteEvent
  split
  · rfl
  · split
    · rfl
    · rfl

/-- The user list after `register`: unchanged, or extended by one user
whose email was fresh and whose `isAdmin` is `false`. -/
lemma register_users_cases (s : ServerState) (name email password : String)
    (institution : Option String) :
    (register s name email password institution).state.users = s.users ∨
    ∃ u0 : User,
      (register s name email password institution).state.users = s.users ++ [u0] ∧
      u0.email = email ∧ u0.isAdmin = false ∧
      (∀ u ∈ s.users, ¬(u.email == email) = true) := by
  unfold register
  cases hb : registerValid name email password with
  | false => exact Or.inl rfl
  | true =>
    cases hf : findUserByEmail s email with
    | some u => exact Or.inl rfl
    | none =>
      refine Or.inr ⟨_, rfl, rfl, rfl, ?_⟩
      rw [findUserByEmail] at hf
      exact List.find?_eq_none.mp hf

/-- The user list after `postAvatar`: unchanged, or mapped by a
function that only rewrites the avatar field. -/
lemma postAvatar_users_cases (s : ServerState) (auth : Option JwtToken)
    (file : Option FileUpload) :
    (postAvatar s auth file).state.users = s.users ∨
    ∃ url pid, (postAvatar s auth file).state.users =
      s.users.map (fun u => if u.id == pid then { u with avatar := url } else u) := by
  unfold postAvatar
  split
  · exact Or.inl rfl
  · split
    · exact Or.inl rfl
    · split
      · exact Or.inl rfl
      · split
        · exact Or.inl rfl
        · exact Or.inr ⟨_, _, rfl⟩

lemma register_state_400 (s : ServerState) (name email password : String)
    (institution : Option String) (u : User) (hmem : u ∈ s.users) (hdup : u.email = email) :
    (register s name email password institution).status = 400 ∧
    (register s name email password institution).state = s := by
  unfold register
  cases hb : registerValid name email password with
  | false => exact ⟨rfl, rfl⟩
  | true =>
    cases hf : findUserByEmail s email with
    | some v => exact ⟨rfl, rfl⟩
    | none =>
      exfalso
      rw [findUserByEmail] at hf
      have := List.find?_eq_none.mp hf u hmem
      simp [beq_iff_eq, hdup] at this

lemma emailUnique_map_avatar (l : List User) (url : String) (pid : Nat)
    (h : l.Pairwise (fun u v => u.email ≠ v.email)) :
    (l.map (fun u => if u.id == pid then { u with avatar := url } else u)).Pairwise
      (fun u v => u.email ≠ v.email) := by
  rw [List.pairwise_map]
  refine h.imp ?_
  intro a b hab
  by_cases ha : (a.id == pid) = true <;> by_cases hb : (b.id == pid) = true <;>
    simp [ha, hb, hab]

lemma emailUnique_step (s : ServerState) (r : Request) (h : emailUnique s) :
    emailUnique (step s r) := by
  cases r with
  | rRegister name email password institution =>
    rcases register_users_cases s name email password institution with hc | ⟨u0, hc, he, _, hfr⟩
    · rw [step, emailUnique, hc]
      exact h
    · rw [step, emailUnique, hc]
      refine List.pairwise_append.mpr ⟨h, by simp, ?_⟩
      intro a ha b hbm
      rw [List.mem_singleton] at hbm
      subst hbm
      rw [he]
      simpa [beq_iff_eq] using hfr a ha
  | rLogin email password => rw [step, emailUnique, login_state_eq]; exact h
  | rPostPaper auth file title desc category author authorAvatar collaboration =>
    rw [step, emailUnique, postPaper_users_eq]; exact h
  | rDeletePaper auth id => rw [step, emailUnique, deletePaper_users_eq]; exact h
  | rPostComment auth id text => rw [step, emailUnique, postComment_users_eq]; exact h
  | rPostAvatar auth file =>
    rcases postAvatar_users_cases s auth file with hc | ⟨url, pid, hc⟩
    · rw [step, emailUnique, hc]; exact h
    · rw [step, emailUnique, hc]
      exact emailUnique_map_avatar _ _ _ h
  | rPostNews auth title desc tag img => rw [step, emailUnique, postNews_users_eq]; exact h
  | rDeleteNews auth id => rw [step, emailUnique, deleteNews_users_eq]; exact h
  | rPostEvent auth title desc etype day month location =>
    rw [step, emailUnique, postEvent_users_eq]; exact h
  | rDeleteEvent auth id => rw [step, emailUnique, deleteEvent_users_eq]; exact h

lemma nonAdmin_step (s : ServerState) (r : Request) (h : allUsersNonAdmin s) :
    allUsersNonAdmin (step s r) := by
  cases r with
  | rRegister name email password institution =>
    rcases register_users_cases s name email password institution with hc | ⟨u0, hc, _, hadm, _⟩
    · rw [step, allUsersNonAdmin, hc]; exact h
    · rw [step, allUsersNonAdmin, hc]
      intro u hu
      rcases List.mem_append.mp hu with hu | hu
      · exact h u hu
      · rw [List.mem_singleton] at hu
        rw [hu]
        exact hadm
  | rLogin email password => rw [step, allUsersNonAdmin, login_state_eq]; exact h
  | rPostPaper auth file title desc category author authorAvatar collaboration =>
    rw [step, allUsersNonAdmin, postPaper_users_eq]; exact h
  | rDeletePaper auth id => rw [step, allUsersNonAdmin, deletePaper_users_eq]; exact h
  | rPostComment auth id text => rw [step, allUsersNonAdmin, postComment_users_eq]; exact h
  | rPostAvatar auth file =>
    rcases postAvatar_users_cases s auth file with hc | ⟨url, pid, hc⟩
    · rw [step, allUsersNonAdmin, hc]; exact h
    · rw [step, allUsersNonAdmin, hc]
      intro u hu
      rcases List.mem_map.mp hu with ⟨v, hv, hmap⟩
      have := h v hv
      by_cases hid : (v.id == pid) = true <;> simp [hid] at hmap <;> rw [← hmap] <;>
        simpa using this
  | rPostNews auth title desc tag img => rw [step, allUsersNonAdmin, postNews_users_eq]; exact h
  | rDeleteNews auth id => rw [step, allUsersNonAdmin, deleteNews_users_eq]; exact h
  | rPostEvent auth title desc etype day month location =>
    rw [step, allUsersNonAdmin, postEvent_users_eq]; exact h
  | rDeleteEvent auth id => rw [step, allUsersNonAdmin, deleteEvent_users_eq]; exact h

lemma nonAdmin_run (s : ServerState) (rs : List Request) (h : allUsersNonAdmin s) :
    allUsersNonAdmin (run s rs) := by
  induction rs generalizing s with
  | nil => exact h
  | cons r rs ih => exact ih _ (nonAdmin_step s r h)

/-- C8: email uniqueness is an invariant of the user store preserved by
every API operation, and `register` on an already-stored email answers
400 and creates no user: the state is exactly as before. -/
theorem register_duplicate_rejected_email_unique (s : ServerState) (r : Request)
    (name email password : String) (institution : Option String) (u : User)
    (huniq : emailUnique s) (hmem : u ∈ s.users) (hdup : u.email = email) :
    (register s name email password institution).status = 400 ∧
    (register s name email password institution).state = s ∧
    emailUnique (step s r) := by
  obtain ⟨h1, h2⟩ := register_state_400 s name email password institution u hmem hdup
  exact ⟨h1, h2, emailUnique_step s r huniq⟩

/-- Witness for C8: Mallory re-registers Alice's email against
`sampleState`; the probed operation is a login step. -/
theorem register_duplicate_rejected_email_unique_witness :
    (register sampleState "Mallory" "a@x.com" "secret99" none).status = 400 ∧
    (register sampleState "Mallory" "a@x.com" "secret99" none).state = sampleState ∧
    emailUnique (step sampleState (Request.rLogin "a@x.com" "secret1")) :=
  register_duplicate_rejected_email_unique sampleState (Request.rLogin "a@x.com" "secret1")
    "Mallory" "a@x.com" "secret99" none sampleUser
    (by simp [emailUnique, sampleState]) (by decide) rfl

/-- C10: every state reachable through the API of the richest variant
has only non-admin users (registration hard-codes `isAdmin = false`
and no endpoint ever writes it), every token minted for a stored user
carries `isAdmin = false`, and under such a token the admin-only
branches of `DELETE /api/news/:id` and `DELETE /api/events/:id` are
unreachable: both answer 403 Forbidden and change nothing. -/
theorem users_never_admin_admin_gates_unreachable (rs : List Request) (s : ServerState)
    (auth : Option JwtToken) (payload : JwtPayload) (u : User) (nid eid : Nat)
    (hs : allUsersNonAdmin s) (hu : u ∈ s.users)
    (hauth : authCheck auth = some payload) (hp : payload.isAdmin = false) :
    allUsersNonAdmin (run initState rs) ∧
    (generateToken u).payload.isAdmin = false ∧
    (deleteNews s auth nid).status = 403 ∧ (deleteNews s auth nid).state = s ∧
    (deleteEvent s auth eid).status = 403 ∧ (deleteEvent s auth eid).state = s := by
  have hn : deleteNews s auth nid = ⟨403, none, s⟩ := by
    unfold deleteNews
    rw [hauth]
    simp [hp]
  have he : deleteEvent s auth eid = ⟨403, none, s⟩ := by
    unfold deleteEvent
    rw [hauth]
    simp [hp]
  refine ⟨nonAdmin_run initState rs ?_, hs u hu, by rw [hn], by rw [hn], by rw [he], by rw [he]⟩
  intro v hv
  cases hv

/-- Witness for C10 at `sampleState`, a one-registration trace, and
Alice's token. -/
theorem users_never_admin_admin_gates_unreachable_witness :
    allUsersNonAdmin (run initState [Request.rRegister "Alice" "a@x.com" "secret1" none]) ∧
    (generateToken sampleUser).payload.isAdmin = false ∧
    (deleteNews sampleState (some sampleToken) 0).status = 403 ∧
    (deleteNews sampleState (some sampleToken) 0).state = sampleState ∧
    (deleteEvent sampleState (some sampleToken) 0).status = 403 ∧
    (deleteEvent sampleState (some sampleToken) 0).state = sampleState :=
  users_never_admin_admin_gates_unreachable
    [Request.rRegister "Alice" "a@x.com" "secret1" none] sampleState
    (some sampleToken) ⟨0, "a@x.com", "Alice", false⟩ sampleUser 0 0
    (by unfold allUsersNonAdmin sampleState; decide) (by decide) (by decide) rfl

/-! ## Sorted listing after a run of submissions (C5) -/

instance : IsTotal Paper (fun a b => b.date ≤ a.date) :=
  ⟨fun a b => Nat.le_total b.date a.date⟩

instance : IsTrans Paper (fun a b => b.date ≤ a.date) :=
  ⟨fun _ _ _ hab hbc => Nat.le_trans hbc hab⟩

/-- One `POST /api/papers` request. -/
structure PaperReq where
  auth : Option JwtToken
  file : Option FileUpload
  title : String
  desc : String
  category : String
  author : String
  authorAvatar : String
  collaboration : String
deriving Repr

/-- Run `POST /api/papers` on a request record. -/
def postPaperReq (s : ServerState) (r : PaperReq) : HandlerResult Paper :=
  postPaper s r.auth r.file r.title r.desc r.category r.author r.authorAvatar r.collaboration

/-- Run a sequence of paper submissions. -/
def runCreates (s : ServerState) : List PaperReq → ServerState
  | [] => s
  | r :: rs => runCreates (postPaperReq s r).state rs

/-- A submission that succeeds: a valid token, a PDF attachment, and
nonempty `title` and `author` fields. -/
def goodPaperReq (r : PaperReq) : Bool :=
  (authCheck r.auth).isSome &&
  (match r.file with
   | some f => f.mimetype == "application/pdf"
   | none => false) &&
  decide (r.title.length ≥ 1) && decide (r.author.length ≥ 1)

lemma postPaperReq_success (s : ServerState) (r : PaperReq) (h : goodPaperReq r = true) :
    ∃ p : Paper,
      (postPaperReq s r).status = 200 ∧
      (postPaperReq s r).state.papers = s.papers ++ [p] ∧
      p.date = s.now ∧
      (postPaperReq s r).state.now = s.now + 1 := by
  rw [goodPaperReq] at h
  simp only [Bool.and_eq_true] at h
  obtain ⟨⟨⟨ha, hm⟩, ht⟩, hau⟩ := h
  obtain ⟨payload, hpayload⟩ := Option.isSome_iff_exists.mp ha
  cases hf : r.file with
  | none => rw [hf] at hm; cases hm
  | some f =>
    rw [hf] at hm
    have hm' : (f.mimetype == "application/pdf") = true := hm
    have hcond1 : (f.mimetype != "application/pdf") = false := by
      simp [bne, hm']
    have hcond2 : (!(decide (r.title.length ≥ 1) && decide (r.author.length ≥ 1))) = false := by
      rw [ht, hau]; rfl
    unfold postPaperReq postPaper
    rw [hpayload, hf]
    simp only [hcond1, hcond2, Bool.false_eq_true, if_false]
    exact ⟨_, trivial, rfl, rfl, trivial⟩

/-- Dates of stored papers are pairwise distinct and below the clock. -/
def paperDatesOk (s : ServerState) : Prop :=
  s.papers.Pairwise (fun p q => p.date ≠ q.date) ∧ ∀ p ∈ s.papers, p.date < s.now

lemma paperDatesOk_post (s : ServerState) (r : PaperReq) (hg : goodPaperReq r = true)
    (h : paperDatesOk s) : paperDatesOk (postPaperReq s r).state := by
  obtain ⟨p, _, hpapers, hdate, hnow⟩ := postPaperReq_success s r hg
  obtain ⟨hpw, hlt⟩ := h
  constructor
  · rw [hpapers]
    refine List.pairwise_append.mpr ⟨hpw, by simp, ?_⟩
    intro a ha b hb
    rw [List.mem_singleton] at hb
    subst hb
    rw [hdate]
    exact Nat.ne_of_lt (hlt a ha)
  · rw [hpapers, hnow]
    intro q hq
    rcases List.mem_append.mp hq with hq | hq
    · exact Nat.lt_succ_of_lt (hlt q hq)
    · rw [List.mem_singleton] at hq
      subst hq
      rw [hdate]
      exact Nat.lt_succ_self _

lemma runCreates_length_datesOk (s : ServerState) (reqs : List PaperReq)
    (hall : ∀ r ∈ reqs, goodPaperReq r = true) (h : paperDatesOk s) :
    (runCreates s reqs).papers.length = s.papers.length + reqs.length ∧
    paperDatesOk (runCreates s reqs) := by
  induction reqs generalizing s with
  | nil => exact ⟨by simp [runCreates], h⟩
  | cons r rs ih =>
    have hg := hall r (by simp)
    obtain ⟨p, _, hpapers, _, _⟩ := postPaperReq_success s r hg
    have hrest := ih (postPaperReq s r).state (fun q hq => hall q (by simp [hq]))
      (paperDatesOk_post s r hg h)
    rw [runCreates]
    refine ⟨?_, hrest.2⟩
    rw [hrest.1, hpapers]
    simp [List.length_append]
    omega

/-- C5: after a sequence of N successful submissions against the fresh
server, `GET /api/papers` returns exactly N records, strictly
descending in their creation marker — newest first. -/
theorem listPapers_after_creates_newest_first (reqs : List PaperReq)
    (hall : ∀ r ∈ reqs, goodPaperReq r = true) :
    (listPapers (runCreates initState reqs)).length = reqs.length ∧
    (listPapers (runCreates initState reqs)).Pairwise (fun p q => q.date < p.date) := by
  have hinit : paperDatesOk initState := ⟨List.Pairwise.nil, by intro p hp; cases hp⟩
  obtain ⟨hlen, hok⟩ := runCreates_length_datesOk initState reqs hall hinit
  constructor
  · rw [listPapers, List.length_insertionSort, hlen]
    simp [initState]
  · have hsorted : List.Pairwise (fun a b : Paper => b.date ≤ a.date)
        (listPapers (runCreates initState reqs)) :=
      List.sorted_insertionSort _ _
    have hperm : (listPapers (runCreates initState reqs)).Perm
        (runCreates initState reqs).papers :=
      List.perm_insertionSort _ _
    have hne : (listPapers (runCreates initState reqs)).Pairwise
        (fun p q => p.date ≠ q.date) :=
      (hperm.pairwise_iff (fun hxy => Ne.symm hxy)).mpr hok.1
    exact (hsorted.and hne).imp (fun h => lt_of_le_of_ne h.1 (Ne.symm h.2))

/-- Two concrete submissions by Alice. -/
def sampleReq1 : PaperReq :=
  { auth := some sampleToken, file := some samplePdf, title := "T1", desc := ""
    category := "", author := "Alice", authorAvatar := "", collaboration := "false" }

/-- A second concrete submission. -/
def sampleReq2 : PaperReq :=
  { auth := some sampleToken, file := some samplePdf, title := "T2", desc := ""
    category := "", author := "Alice", authorAvatar := "", collaboration := "true" }

/-- Witness for C5: two submissions against the fresh server. -/
theorem listPapers_after_creates_newest_first_witness :
    (listPapers (runCreates initState [sampleReq1, sampleReq2])).length =
      [sampleReq1, sampleReq2].length ∧
    (listPapers (runCreates initState [sampleReq1, sampleReq2])).Pairwise
      (fun p q => q.date < p.date) :=
  listPapers_after_creates_newest_first [sampleReq1, sampleReq2] (by decide)

end Unida

namespace UnidaV1

/-- C9: the no-auth variant's `DELETE /api/papers/:id` takes no
identity at all (the embedded handler has no Authorization input, so
the outcome is the same for every caller) and, on an existing id,
answers success having removed exactly the database record: the media
store is untouched (the schema keeps no storage handle), the record is
gone, and every other record is kept. -/
theorem deletePaper_no_auth_media_unchanged (s : ServerState) (id : Nat) (p : Paper)
    (hfind : getPaperById s id = some p) :
    (deletePaper s id).state.media = s.media ∧
    (deletePaper s id).status = 200 ∧
    getPaperById (deletePaper s id).state id = none ∧
    ∀ q ∈ s.papers, q.id ≠ id → q ∈ (deletePaper s id).state.papers := by
  rw [getPaperById] at hfind
  unfold deletePaper
  rw [hfind]
  refine ⟨rfl, rfl, ?_, ?_⟩
  · rw [getPaperById, List.find?_eq_none]
    intro q hq
    have := (List.mem_filter.mp hq).2
    simp only [bne_iff_ne, ne_eq] at this
    simp [this]
  · intro q hq hne
    exact List.mem_filter.mpr ⟨hq, by simpa [bne_iff_ne] using hne⟩

/-- A concrete paper of the no-auth variant. -/
def v1Paper : Paper :=
  { id := 1, title := "T", desc := "", category := "", author := "A"
    authorAvatar := "", pdfUrl := "u", collaboration := "false"
    date := "01.01.2025", likes := 0 }

/-- A concrete state of the no-auth variant. -/
def v1State : ServerState := { papers := [v1Paper], media := ["m1"] }

/-- Witness for C9: deleting paper 1 from `v1State`. -/
theorem deletePaper_no_auth_media_unchanged_witness :
    (deletePaper v1State 1).state.media = v1State.media ∧
    (deletePaper v1State 1).status = 200 ∧
    getPaperById (deletePaper v1State 1).state 1 = none ∧
    ∀ q ∈ v1State.papers, q.id ≠ 1 → q ∈ (deletePaper v1State 1).state.papers :=
  deletePaper_no_auth_media_unchanged v1State 1 v1Paper (by decide)

end UnidaV1

